import Mathlib

/-!
Shallow embedding of the sanitization and shape-enforcement core of
`src/main.py` (NICU compass).  Deserialized Python/JSON values are
modelled by `PyVal`; Python dicts by insertion-ordered association
lists.  Code that can raise is modelled in `Except String`, the error
string naming the Python exception class.
-/

/-- A deserialized Python/JSON-like value: `None`, booleans, integers,
strings, lists, and insertion-ordered dictionaries with string keys. -/
inductive PyVal where
  | none : PyVal
  | bool : Bool → PyVal
  | int : Int → PyVal
  | str : String → PyVal
  | list : List PyVal → PyVal
  | dict : List (String × PyVal) → PyVal

/-- Dictionary lookup on an association list (keys kept unique by
`dictSet`, so first match suffices). -/
def dictGet (es : List (String × PyVal)) (k : String) : Option PyVal :=
  match es with
  | [] => Option.none
  | (k', v) :: rest => if k' = k then Option.some v else dictGet rest k

/-- Assignment `d[k] = v` on an association list: update the key in place (Python
dicts keep the original insertion position of an updated key) or append
it at the end. -/
def dictSet (es : List (String × PyVal)) (k : String) (v : PyVal) : List (String × PyVal) :=
  match es with
  | [] => [(k, v)]
  | (k', v') :: rest => if k' = k then (k, v) :: rest else (k', v') :: dictSet rest k v

/-- Read `base[sect][sec]` when that path exists and `base[sect]` is a
dict. -/
def getNested (base : PyVal) (sect sec : String) : Option PyVal :=
  match base with
  | .dict es =>
    match dictGet es sect with
    | Option.some (.dict inner) => dictGet inner sec
    | _ => Option.none
  | _ => Option.none

/-- Assignment `base[sect][sec] = v`.  A no-op when the path to the inner dict is
absent; in `enforce_shape` the base always has the full path. -/
def setNested (base : PyVal) (sect sec : String) (v : PyVal) : PyVal :=
  match base with
  | .dict es =>
    match dictGet es sect with
    | Option.some (.dict inner) => .dict (dictSet es sect (.dict (dictSet inner sec v)))
    | _ => base
  | _ => base

/-- The characters `str.strip()` removes (ASCII whitespace; the extra
Unicode space characters Python also strips never occur in any verified
input). -/
def pyIsSpace (c : Char) : Bool :=
  c = ' ' || c = '\t' || c = '\n' || c = '\r' || c = '\x0b' || c = '\x0c'

/-- Python `s.strip()`. -/
def pyStrip (s : String) : String :=
  String.mk (((s.toList.dropWhile pyIsSpace).reverse.dropWhile pyIsSpace).reverse)

/-- Function `clamp_text` from `src/main.py`: strip, then hard-cut to the first
`max_chars` characters when the stripped string is longer. -/
def clamp_text (s : String) (max_chars : Nat) : String :=
  let t := pyStrip s
  if t.length > max_chars then String.mk (t.toList.take max_chars) else t

/-- Function `empty_payload` from `src/main.py`. -/
def empty_payload : PyVal :=
  .dict [("summary", .dict [("breathing", .list []), ("feeding", .list []),
            ("growth", .list []), ("events", .list [])]),
         ("questions", .dict [("breathing", .list []), ("feeding", .list []),
            ("growth", .list []), ("events", .list []), ("discharge", .list [])])]

/-- The four summary categories, in source order. -/
def summaryCats : List String := ["breathing", "feeding", "growth", "events"]

/-- The five question categories, in source order. -/
def questionCats : List String := ["breathing", "feeding", "growth", "events", "discharge"]

/-- Python `isinstance(x, str)`. -/
def PyVal.isStr : PyVal → Bool
  | .str _ => true
  | _ => false

/-- Comprehension `[str(x) for x in arr if isinstance(x, str)]` — `str` applied to a
`str` is the identity, so the comprehension is a filter. -/
def filterStrs (xs : List PyVal) : List PyVal :=
  xs.filter PyVal.isStr

/-- Python `obj.get(k, default)`; raises `AttributeError` unless `obj` is a
dict (in `enforce_shape` the outer `obj` is always a dict here). -/
def pyGetD (obj : PyVal) (k : String) (dflt : PyVal) : Except String PyVal :=
  match obj with
  | .dict es => .ok ((dictGet es k).getD dflt)
  | _ => .error "AttributeError"

/-- Python `v.get(k)`: raises `AttributeError` unless `v` is a dict; absent
keys give `None`. -/
def dotGet (v : PyVal) (k : String) : Except String PyVal :=
  match v with
  | .dict es => .ok ((dictGet es k).getD PyVal.none)
  | _ => .error "AttributeError"

/-- One iteration of the two extraction loops in `enforce_shape`:
`arr = obj.get(sect, {}).get(sec)`, then
`if isinstance(arr, list): base[sect][sec] = [str(x) for x in arr if isinstance(x, str)]`. -/
def extractCat (obj : PyVal) (sect sec : String) (base : PyVal) : Except String PyVal :=
  match pyGetD obj sect (.dict []) with
  | .error e => .error e
  | .ok v =>
    match dotGet v sec with
    | .error e => .error e
    | .ok arr =>
      match arr with
      | .list xs => .ok (setNested base sect sec (.list (filterStrs xs)))
      | _ => .ok base

/-- The `for sec in [...]` extraction loops of `enforce_shape`. -/
def extractSection (obj : PyVal) (sect : String) (cats : List String) (base : PyVal) :
    Except String PyVal :=
  match cats with
  | [] => .ok base
  | sec :: rest =>
    match extractCat obj sect sec base with
    | .ok b => extractSection obj sect rest b
    | .error e => .error e

/-- The inner `for q in base["questions"][sec]` loop of the cap: keep
elements while `total < 12`, `break` once it reaches 12.  Returns the
kept list and the updated running total. -/
def trimWithTotal (total : Nat) (xs : List PyVal) : List PyVal × Nat :=
  match xs with
  | [] => ([], total)
  | q :: rest =>
    if total ≥ 12 then ([], total)
    else
      let p := trimWithTotal (total + 1) rest
      (q :: p.1, p.2)

/-- The capping loop over the question categories, `total` threaded
across categories. -/
def capLoop (base : PyVal) (cats : List String) (total : Nat) : PyVal :=
  match cats with
  | [] => base
  | sec :: rest =>
    let xs := match getNested base "questions" sec with
      | Option.some (.list xs) => xs
      | _ => []
    let p := trimWithTotal total xs
    capLoop (setNested base "questions" sec (.list p.1)) rest p.2

/-- The `# Cap total questions at 12` block of `enforce_shape`. -/
def capQuestions (base : PyVal) : PyVal :=
  capLoop base questionCats 0

/-- Function `enforce_shape` from `src/main.py`.  `Except.error "AttributeError"`
models the exception raised when `obj["summary"]` or `obj["questions"]`
is present but not a dict (then `obj.get(..., {}).get(sec)` calls
`.get` on a non-dict). -/
def enforce_shape (obj : PyVal) : Except String PyVal :=
  match obj with
  | .dict _ =>
    match extractSection obj "summary" summaryCats empty_payload with
    | .error e => .error e
    | .ok b =>
      match extractSection obj "questions" questionCats b with
      | .error e => .error e
      | .ok b2 => .ok (capQuestions b2)
  | _ => .ok empty_payload

/-- Decimal digit run for Python `int()` (sign handled by the caller).
The underscore digit separators Python also accepts are not modelled —
no claim exercises them. -/
def parseDigits (cs : List Char) : Except String Nat :=
  if cs.isEmpty then .error "ValueError"
  else if cs.all Char.isDigit then
    .ok (cs.foldl (fun acc c => acc * 10 + (c.toNat - '0'.toNat)) 0)
  else .error "ValueError"

/-- Python `int(s)` on a string: strip whitespace, optional sign,
decimal digits; `ValueError` otherwise. -/
def parseIntPy (s : String) : Except String Int :=
  match (pyStrip s).toList with
  | [] => .error "ValueError"
  | '+' :: rest =>
    (match parseDigits rest with
     | .ok n => .ok (n : Int)
     | .error e => .error e)
  | '-' :: rest =>
    (match parseDigits rest with
     | .ok n => .ok (-(n : Int))
     | .error e => .error e)
  | cs =>
    (match parseDigits cs with
     | .ok n => .ok (n : Int)
     | .error e => .error e)

/-- Expression `d = int(cgaDays) if cgaDays else 0` from `generate`: absent or
empty days default to 0 without a parse attempt. -/
def daysVal (cgaDays : Option String) : Except String Int :=
  match cgaDays with
  | Option.none => .ok 0
  | Option.some s => if s = "" then .ok 0 else parseIntPy s

/-- The corrected-gestational-age derivation in `generate`
(`src/main.py` lines 80–88): `cga = f"{w}+{d}"` only when the parses
succeed and `22 <= w <= 44 and 0 <= d <= 6`; a `ValueError` from either
`int()` call is swallowed by the `except` clause. -/
def cga_of (cgaWeeks cgaDays : Option String) : Option String :=
  match cgaWeeks with
  | Option.none => Option.none
  | Option.some s =>
    if s = "" then Option.none
    else
      match parseIntPy s with
      | .error _ => Option.none
      | .ok w =>
        match daysVal cgaDays with
        | .error _ => Option.none
        | .ok d =>
          if 22 ≤ w ∧ w ≤ 44 ∧ 0 ≤ d ∧ d ≤ 6 then
            Option.some (toString w ++ "+" ++ toString d)
          else Option.none

/-- Python truthiness of an optional string: `None` and `""` are falsy. -/
def pyTruthy (s : Option String) : Bool :=
  match s with
  | Option.none => false
  | Option.some s => s != ""

/-- The sanitized request context that `generate` would embed into the
outbound prompt. -/
structure PromptData where
  dateISO : String
  respSupport : String
  feedingMethod : String
  weightKg : Option String
  weightHistory : Option String
  notes : Option String
  cga : Option String

/-- Outcome of the `generate` handler up to the external-call boundary. -/
inductive GenOutcome where
  | missingKey : GenOutcome
  | shortCircuit : PyVal → GenOutcome
  | callModel : PromptData → GenOutcome

/-- Control flow of the `/api/generate` handler (`src/main.py` lines
59–91) before the external model call: API-key check, sanitization, CGA
derivation, and the short-circuit.  The model call itself is I/O and is
outside the embedding; `callModel` carries the sanitized data that
would be used to build the prompt. -/
def generate (apiKey : Option String) (dateISO respSupport feedingMethod : String)
    (weightKg cgaWeeks cgaDays weightHistory notes : Option String) : GenOutcome :=
  if !pyTruthy apiKey then .missingKey
  else
    let dateISO := clamp_text dateISO 20
    let respSupport := clamp_text respSupport 30
    let feedingMethod := clamp_text feedingMethod 30
    let weightKg := match weightKg with
      | Option.some w => if w = "" then Option.none else Option.some (clamp_text w 20)
      | Option.none => Option.none
    let weightHistory := match weightHistory with
      | Option.some h => if h = "" then Option.none else Option.some (clamp_text h 300)
      | Option.none => Option.none
    let notes := match notes with
      | Option.some n => if n = "" then Option.none else Option.some (clamp_text n 1200)
      | Option.none => Option.none
    let cga := cga_of cgaWeeks cgaDays
    if !pyTruthy notes && !pyTruthy weightKg &&
        respSupport == "Room air" && feedingMethod == "Combo" then
      .shortCircuit empty_payload
    else
      .callModel ⟨dateISO, respSupport, feedingMethod, weightKg, weightHistory, notes, cga⟩

/-- A payload dict with the fixed key skeleton of `empty_payload` and
the nine category slots as parameters. -/
def mkBase (s1 s2 s3 s4 q1 q2 q3 q4 q5 : List PyVal) : PyVal :=
  .dict [("summary", .dict [("breathing", .list s1), ("feeding", .list s2),
            ("growth", .list s3), ("events", .list s4)]),
         ("questions", .dict [("breathing", .list q1), ("feeding", .list q2),
            ("growth", .list q3), ("events", .list q4), ("discharge", .list q5)])]

/-- The candidate list a category contributes before string filtering:
`obj[sect][sec]` when that path holds a list, `[]` otherwise. -/
def catCandidate (obj : PyVal) (sect sec : String) : List PyVal :=
  match getNested obj sect sec with
  | Option.some (.list xs) => xs
  | _ => []

/-- The candidate list `inner[sec]` contributes when it is a list. -/
def innerCand (inner : List (String × PyVal)) (sec : String) : List PyVal :=
  match dictGet inner sec with
  | Option.some (.list xs) => xs
  | _ => []

/-- Number of questions in one category of a payload. -/
def qLen (r : PyVal) (sec : String) : Nat :=
  match getNested r "questions" sec with
  | Option.some (.list xs) => xs.length
  | _ => 0

/-- Total number of questions across the five categories. -/
def sumQuestions (r : PyVal) : Nat :=
  qLen r "breathing" + qLen r "feeding" + qLen r "growth" + qLen r "events" + qLen r "discharge"

/-- Key list of a dict value. -/
def dictKeys (v : PyVal) : Option (List String) :=
  match v with
  | .dict es => Option.some (es.map Prod.fst)
  | _ => Option.none

/-- Key list of `r[k]` when `r` is a dict with `k` mapped to a dict. -/
def keysAt (r : PyVal) (k : String) : Option (List String) :=
  match r with
  | .dict es =>
    match dictGet es k with
    | Option.some v => dictKeys v
    | Option.none => Option.none
  | _ => Option.none

/-- Is `r[sect][sec]` present and a list? -/
def isListAt (r : PyVal) (sect sec : String) : Bool :=
  match getNested r sect sec with
  | Option.some (.list _) => true
  | _ => false

/-- All elements of the list are Python strings. -/
def allStr (xs : List PyVal) : Bool := xs.all PyVal.isStr

/-- The association-list entries of `mkBase`'s summary section. -/
def sumEntries (s1 s2 s3 s4 : List PyVal) : List (String × PyVal) :=
  [("breathing", .list s1), ("feeding", .list s2), ("growth", .list s3), ("events", .list s4)]

/-- The association-list entries of `mkBase`'s questions section. -/
def questEntries (q1 q2 q3 q4 q5 : List PyVal) : List (String × PyVal) :=
  [("breathing", .list q1), ("feeding", .list q2), ("growth", .list q3), ("events", .list q4),
   ("discharge", .list q5)]

/-- The top-level association-list entries of `mkBase`. -/
def baseEntries (s1 s2 s3 s4 q1 q2 q3 q4 q5 : List PyVal) : List (String × PyVal) :=
  [("summary", .dict (sumEntries s1 s2 s3 s4)),
   ("questions", .dict (questEntries q1 q2 q3 q4 q5))]

/-- The C3 scenario input: ten valid breathing questions, five valid
feeding questions, the other question categories empty. -/
def c3Input : PyVal :=
  .dict [("questions", .dict [
    ("breathing", .list [.str "b01", .str "b02", .str "b03", .str "b04", .str "b05",
      .str "b06", .str "b07", .str "b08", .str "b09", .str "b10"]),
    ("feeding", .list [.str "f1", .str "f2", .str "f3", .str "f4", .str "f5"]),
    ("growth", .list []), ("events", .list []), ("discharge", .list [])])]

/-- The record the C3 scenario must produce: all ten breathing
questions, the first two feeding questions, everything else empty. -/
def c3Output : PyVal :=
  mkBase [] [] [] []
    [.str "b01", .str "b02", .str "b03", .str "b04", .str "b05",
     .str "b06", .str "b07", .str "b08", .str "b09", .str "b10"]
    [.str "f1", .str "f2"] [] [] []

/-- Concrete instance of C2: fourteen candidate questions are capped. -/
def c2Input : PyVal :=
  .dict [("questions", .dict [
    ("breathing", .list (List.replicate 8 (.str "q"))),
    ("feeding", .list (List.replicate 6 (.str "p")))])]

/-- The capped record for `c2Input`. -/
def c2Output : PyVal :=
  mkBase [] [] [] [] (List.replicate 8 (.str "q")) (List.replicate 4 (.str "p")) [] [] []

/-- The C5 scenario input: `summary.breathing = ["a", 1, None, "b", {}]`. -/
def c5Input : PyVal :=
  .dict [("summary", .dict [("breathing",
    .list [.str "a", .int 1, PyVal.none, .str "b", .dict []])])]

/-- The record produced for `c5Input`: the non-strings are dropped. -/
def c5Output : PyVal := mkBase [.str "a", .str "b"] [] [] [] [] [] [] [] []

section MkBaseLemmas

variable (s1 s2 s3 s4 q1 q2 q3 q4 q5 : List PyVal)

@[simp] lemma empty_payload_mkBase : empty_payload = mkBase [] [] [] [] [] [] [] [] [] := rfl

@[simp] lemma getNested_mkBase_sb :
    getNested (mkBase s1 s2 s3 s4 q1 q2 q3 q4 q5) "summary" "breathing" = Option.some (.list s1) := rfl

@[simp] lemma getNested_mkBase_sf :
    getNested (mkBase s1 s2 s3 s4 q1 q2 q3 q4 q5) "summary" "feeding" = Option.some (.list s2) := rfl

@[simp] lemma getNested_mkBase_sg :
    getNested (mkBase s1 s2 s3 s4 q1 q2 q3 q4 q5) "summary" "growth" = Option.some (.list s3) := rfl

@[simp] lemma getNested_mkBase_se :
    getNested (mkBase s1 s2 s3 s4 q1 q2 q3 q4 q5) "summary" "events" = Option.some (.list s4) := rfl

@[simp] lemma getNested_mkBase_qb :
    getNested (mkBase s1 s2 s3 s4 q1 q2 q3 q4 q5) "questions" "breathing" = Option.some (.list q1) := rfl

@[simp] lemma getNested_mkBase_qf :
    getNested (mkBase s1 s2 s3 s4 q1 q2 q3 q4 q5) "questions" "feeding" = Option.some (.list q2) := rfl

@[simp] lemma getNested_mkBase_qg :
    getNested (mkBase s1 s2 s3 s4 q1 q2 q3 q4 q5) "questions" "growth" = Option.some (.list q3) := rfl

@[simp] lemma getNested_mkBase_qe :
    getNested (mkBase s1 s2 s3 s4 q1 q2 q3 q4 q5) "questions" "events" = Option.some (.list q4) := rfl

@[simp] lemma getNested_mkBase_qd :
    getNested (mkBase s1 s2 s3 s4 q1 q2 q3 q4 q5) "questions" "discharge" = Option.some (.list q5) := rfl

variable (l : List PyVal)

@[simp] lemma setNested_mkBase_sb :
    setNested (mkBase s1 s2 s3 s4 q1 q2 q3 q4 q5) "summary" "breathing" (.list l) =
      mkBase l s2 s3 s4 q1 q2 q3 q4 q5 := rfl

@[simp] lemma setNested_mkBase_sf :
    setNested (mkBase s1 s2 s3 s4 q1 q2 q3 q4 q5) "summary" "feeding" (.list l) =
      mkBase s1 l s3 s4 q1 q2 q3 q4 q5 := rfl

@[simp] lemma setNested_mkBase_sg :
    setNested (mkBase s1 s2 s3 s4 q1 q2 q3 q4 q5) "summary" "growth" (.list l) =
      mkBase s1 s2 l s4 q1 q2 q3 q4 q5 := rfl

@[simp] lemma setNested_mkBase_se :
    setNested (mkBase s1 s2 s3 s4 q1 q2 q3 q4 q5) "summary" "events" (.list l) =
      mkBase s1 s2 s3 l q1 q2 q3 q4 q5 := rfl

@[simp] lemma setNested_mkBase_qb :
    setNested (mkBase s1 s2 s3 s4 q1 q2 q3 q4 q5) "questions" "breathing" (.list l) =
      mkBase s1 s2 s3 s4 l q2 q3 q4 q5 := rfl

@[simp] lemma setNested_mkBase_qf :
    setNested (mkBase s1 s2 s3 s4 q1 q2 q3 q4 q5) "questions" "feeding" (.list l) =
      mkBase s1 s2 s3 s4 q1 l q3 q4 q5 := rfl

@[simp] lemma setNested_mkBase_qg :
    setNested (mkBase s1 s2 s3 s4 q1 q2 q3 q4 q5) "questions" "growth" (.list l) =
      mkBase s1 s2 s3 s4 q1 q2 l q4 q5 := rfl

@[simp] lemma setNested_mkBase_qe :
    setNested (mkBase s1 s2 s3 s4 q1 q2 q3 q4 q5) "questions" "events" (.list l) =
      mkBase s1 s2 s3 s4 q1 q2 q3 l q5 := rfl

@[simp] lemma setNested_mkBase_qd :
    setNested (mkBase s1 s2 s3 s4 q1 q2 q3 q4 q5) "questions" "discharge" (.list l) =
      mkBase s1 s2 s3 s4 q1 q2 q3 q4 l := rfl

end MkBaseLemmas

lemma extractCat_eq (es : List (String × PyVal)) (sect sec : String) (base : PyVal) :
    extractCat (.dict es) sect sec base =
      match dictGet es sect with
      | Option.none => .ok base
      | Option.some (.dict inner) =>
        (match dictGet inner sec with
         | Option.some (.list xs) => .ok (setNested base sect sec (.list (filterStrs xs)))
         | _ => .ok base)
      | Option.some _ => .error "AttributeError" := by
  rcases h : dictGet es sect with _ | v
  · simp [extractCat, pyGetD, dotGet, h, dictGet]
  · cases v with
    | dict inner =>
      rcases hi : dictGet inner sec with _ | w
      · simp [extractCat, pyGetD, dotGet, h, hi]
      · cases w <;> simp [extractCat, pyGetD, dotGet, h, hi]
    | none => simp [extractCat, pyGetD, dotGet, h]
    | bool b => simp [extractCat, pyGetD, dotGet, h]
    | int n => simp [extractCat, pyGetD, dotGet, h]
    | str s => simp [extractCat, pyGetD, dotGet, h]
    | list xs => simp [extractCat, pyGetD, dotGet, h]

lemma trimWithTotal_eq (xs : List PyVal) : ∀ total : Nat,
    trimWithTotal total xs = (xs.take (12 - total), total + min xs.length (12 - total)) := by
  induction xs with
  | nil => intro total; simp [trimWithTotal]
  | cons q rest ih =>
    intro total
    by_cases h : total ≥ 12
    · have h12 : 12 - total = 0 := by omega
      simp [trimWithTotal, h, h12]
    · have h12 : 12 - total = (12 - (total + 1)) + 1 := by omega
      rw [trimWithTotal, if_neg h, ih (total + 1), h12]
      simp [List.take_succ_cons]
      omega

lemma capQuestions_mkBase (s1 s2 s3 s4 q1 q2 q3 q4 q5 : List PyVal) :
    capQuestions (mkBase s1 s2 s3 s4 q1 q2 q3 q4 q5) =
      mkBase s1 s2 s3 s4 (q1.take 12) (q2.take (12 - q1.length))
        (q3.take (12 - (q1.length + q2.length)))
        (q4.take (12 - (q1.length + q2.length + q3.length)))
        (q5.take (12 - (q1.length + q2.length + q3.length + q4.length))) := by
  simp [capQuestions, questionCats, capLoop, trimWithTotal_eq]
  have e2 : 12 - min q1.length 12 = 12 - q1.length := by omega
  have e3 : 12 - (min q1.length 12 + min q2.length (12 - min q1.length 12)) =
      12 - (q1.length + q2.length) := by omega
  have e4 : 12 - (min q1.length 12 + min q2.length (12 - min q1.length 12) +
        min q3.length (12 - (min q1.length 12 + min q2.length (12 - min q1.length 12)))) =
      12 - (q1.length + q2.length + q3.length) := by omega
  have e5 : 12 - (min q1.length 12 + min q2.length (12 - min q1.length 12) +
        min q3.length (12 - (min q1.length 12 + min q2.length (12 - min q1.length 12))) +
        min q4.length (12 - (min q1.length 12 + min q2.length (12 - min q1.length 12) +
          min q3.length (12 - (min q1.length 12 + min q2.length (12 - min q1.length 12)))))) =
      12 - (q1.length + q2.length + q3.length + q4.length) := by omega
  rw [e5, e4, e3, e2]

lemma extractCat_none (es : List (String × PyVal)) (sect sec : String) (base : PyVal)
    (h : dictGet es sect = Option.none) :
    extractCat (.dict es) sect sec base = .ok base := by
  rw [extractCat_eq, h]

lemma extractCat_bad (es : List (String × PyVal)) (sect sec : String) (base : PyVal) (v : PyVal)
    (h : dictGet es sect = Option.some v) (hv : ∀ inner, v ≠ .dict inner) :
    extractCat (.dict es) sect sec base = .error "AttributeError" := by
  rw [extractCat_eq, h]
  cases v with
  | dict inner => exact absurd rfl (hv inner)
  | none => rfl
  | bool b => rfl
  | int n => rfl
  | str s => rfl
  | list xs => rfl

lemma extractSection_none (es : List (String × PyVal)) (sect : String)
    (h : dictGet es sect = Option.none) :
    ∀ (cats : List String) (base : PyVal), extractSection (.dict es) sect cats base = .ok base := by
  intro cats
  induction cats with
  | nil => intro base; rfl
  | cons sec rest ih =>
    intro base
    simp only [extractSection]
    rw [extractCat_none es sect sec base h]
    exact ih base

lemma extractSection_bad (es : List (String × PyVal)) (sect : String) (v : PyVal)
    (h : dictGet es sect = Option.some v) (hv : ∀ inner, v ≠ .dict inner) :
    ∀ (cats : List String), cats ≠ [] → ∀ base : PyVal,
      extractSection (.dict es) sect cats base = .error "AttributeError" := by
  intro cats hc base
  cases cats with
  | nil => exact absurd rfl hc
  | cons sec rest =>
    simp only [extractSection]
    rw [extractCat_bad es sect sec base v h hv]

lemma extractCat_sum_b (es inner : List (String × PyVal))
    (h : dictGet es "summary" = Option.some (.dict inner))
    (a2 a3 a4 c1 c2 c3 c4 c5 : List PyVal) :
    extractCat (.dict es) "summary" "breathing" (mkBase [] a2 a3 a4 c1 c2 c3 c4 c5) =
      .ok (mkBase (filterStrs (innerCand inner "breathing")) a2 a3 a4 c1 c2 c3 c4 c5) := by
  rw [extractCat_eq, h]
  rcases hb : dictGet inner "breathing" with _ | w
  · simp [innerCand, hb, filterStrs]
  · cases w <;> simp [innerCand, hb, filterStrs]

lemma extractCat_sum_f (es inner : List (String × PyVal))
    (h : dictGet es "summary" = Option.some (.dict inner))
    (a1 a3 a4 c1 c2 c3 c4 c5 : List PyVal) :
    extractCat (.dict es) "summary" "feeding" (mkBase a1 [] a3 a4 c1 c2 c3 c4 c5) =
      .ok (mkBase a1 (filterStrs (innerCand inner "feeding")) a3 a4 c1 c2 c3 c4 c5) := by
  rw [extractCat_eq, h]
  rcases hb : dictGet inner "feeding" with _ | w
  · simp [innerCand, hb, filterStrs]
  · cases w <;> simp [innerCand, hb, filterStrs]

lemma extractCat_sum_g (es inner : List (String × PyVal))
    (h : dictGet es "summary" = Option.some (.dict inner))
    (a1 a2 a4 c1 c2 c3 c4 c5 : List PyVal) :
    extractCat (.dict es) "summary" "growth" (mkBase a1 a2 [] a4 c1 c2 c3 c4 c5) =
      .ok (mkBase a1 a2 (filterStrs (innerCand inner "growth")) a4 c1 c2 c3 c4 c5) := by
  rw [extractCat_eq, h]
  rcases hb : dictGet inner "growth" with _ | w
  · simp [innerCand, hb, filterStrs]
  · cases w <;> simp [innerCand, hb, filterStrs]

lemma extractCat_sum_e (es inner : List (String × PyVal))
    (h : dictGet es "summary" = Option.some (.dict inner))
    (a1 a2 a3 c1 c2 c3 c4 c5 : List PyVal) :
    extractCat (.dict es) "summary" "events" (mkBase a1 a2 a3 [] c1 c2 c3 c4 c5) =
      .ok (mkBase a1 a2 a3 (filterStrs (innerCand inner "events")) c1 c2 c3 c4 c5) := by
  rw [extractCat_eq, h]
  rcases hb : dictGet inner "events" with _ | w
  · simp [innerCand, hb, filterStrs]
  · cases w <;> simp [innerCand, hb, filterStrs]

lemma extractCat_q_b (es inner : List (String × PyVal))
    (h : dictGet es "questions" = Option.some (.dict inner))
    (a1 a2 a3 a4 c2 c3 c4 c5 : List PyVal) :
    extractCat (.dict es) "questions" "breathing" (mkBase a1 a2 a3 a4 [] c2 c3 c4 c5) =
      .ok (mkBase a1 a2 a3 a4 (filterStrs (innerCand inner "breathing")) c2 c3 c4 c5) := by
  rw [extractCat_eq, h]
  rcases hb : dictGet inner "breathing" with _ | w
  · simp [innerCand, hb, filterStrs]
  · cases w <;> simp [innerCand, hb, filterStrs]

lemma extractCat_q_f (es inner : List (String × PyVal))
    (h : dictGet es "questions" = Option.some (.dict inner))
    (a1 a2 a3 a4 c1 c3 c4 c5 : List PyVal) :
    extractCat (.dict es) "questions" "feeding" (mkBase a1 a2 a3 a4 c1 [] c3 c4 c5) =
      .ok (mkBase a1 a2 a3 a4 c1 (filterStrs (innerCand inner "feeding")) c3 c4 c5) := by
  rw [extractCat_eq, h]
  rcases hb : dictGet inner "feeding" with _ | w
  · simp [innerCand, hb, filterStrs]
  · cases w <;> simp [innerCand, hb, filterStrs]

lemma extractCat_q_g (es inner : List (String × PyVal))
    (h : dictGet es "questions" = Option.some (.dict inner))
    (a1 a2 a3 a4 c1 c2 c4 c5 : List PyVal) :
    extractCat (.dict es) "questions" "growth" (mkBase a1 a2 a3 a4 c1 c2 [] c4 c5) =
      .ok (mkBase a1 a2 a3 a4 c1 c2 (filterStrs (innerCand inner "growth")) c4 c5) := by
  rw [extractCat_eq, h]
  rcases hb : dictGet inner "growth" with _ | w
  · simp [innerCand, hb, filterStrs]
  · cases w <;> simp [innerCand, hb, filterStrs]

lemma extractCat_q_e (es inner : List (String × PyVal))
    (h : dictGet es "questions" = Option.some (.dict inner))
    (a1 a2 a3 a4 c1 c2 c3 c5 : List PyVal) :
    extractCat (.dict es) "questions" "events" (mkBase a1 a2 a3 a4 c1 c2 c3 [] c5) =
      .ok (mkBase a1 a2 a3 a4 c1 c2 c3 (filterStrs (innerCand inner "events")) c5) := by
  rw [extractCat_eq, h]
  rcases hb : dictGet inner "events" with _ | w
  · simp [innerCand, hb, filterStrs]
  · cases w <;> simp [innerCand, hb, filterStrs]

lemma extractCat_q_d (es inner : List (String × PyVal))
    (h : dictGet es "questions" = Option.some (.dict inner))
    (a1 a2 a3 a4 c1 c2 c3 c4 : List PyVal) :
    extractCat (.dict es) "questions" "discharge" (mkBase a1 a2 a3 a4 c1 c2 c3 c4 []) =
      .ok (mkBase a1 a2 a3 a4 c1 c2 c3 c4 (filterStrs (innerCand inner "discharge"))) := by
  rw [extractCat_eq, h]
  rcases hb : dictGet inner "discharge" with _ | w
  · simp [innerCand, hb, filterStrs]
  · cases w <;> simp [innerCand, hb, filterStrs]

lemma extractSection_summary (es inner : List (String × PyVal))
    (h : dictGet es "summary" = Option.some (.dict inner)) (c1 c2 c3 c4 c5 : List PyVal) :
    extractSection (.dict es) "summary" summaryCats (mkBase [] [] [] [] c1 c2 c3 c4 c5) =
      .ok (mkBase (filterStrs (innerCand inner "breathing")) (filterStrs (innerCand inner "feeding"))
        (filterStrs (innerCand inner "growth")) (filterStrs (innerCand inner "events"))
        c1 c2 c3 c4 c5) := by
  simp only [summaryCats, extractSection, extractCat_sum_b es inner h,
    extractCat_sum_f es inner h, extractCat_sum_g es inner h, extractCat_sum_e es inner h]

lemma extractSection_questions (es inner : List (String × PyVal))
    (h : dictGet es "questions" = Option.some (.dict inner)) (a1 a2 a3 a4 : List PyVal) :
    extractSection (.dict es) "questions" questionCats (mkBase a1 a2 a3 a4 [] [] [] [] []) =
      .ok (mkBase a1 a2 a3 a4 (filterStrs (innerCand inner "breathing"))
        (filterStrs (innerCand inner "feeding")) (filterStrs (innerCand inner "growth"))
        (filterStrs (innerCand inner "events")) (filterStrs (innerCand inner "discharge"))) := by
  simp only [questionCats, extractSection, extractCat_q_b es inner h, extractCat_q_f es inner h,
    extractCat_q_g es inner h, extractCat_q_e es inner h, extractCat_q_d es inner h]

lemma enforce_shape_ok (obj r : PyVal) (h : enforce_shape obj = .ok r) :
    r = capQuestions (mkBase
      (filterStrs (catCandidate obj "summary" "breathing"))
      (filterStrs (catCandidate obj "summary" "feeding"))
      (filterStrs (catCandidate obj "summary" "growth"))
      (filterStrs (catCandidate obj "summary" "events"))
      (filterStrs (catCandidate obj "questions" "breathing"))
      (filterStrs (catCandidate obj "questions" "feeding"))
      (filterStrs (catCandidate obj "questions" "growth"))
      (filterStrs (catCandidate obj "questions" "events"))
      (filterStrs (catCandidate obj "questions" "discharge"))) := by
  cases obj with
  | none => simp only [enforce_shape, Except.ok.injEq] at h; subst h; rfl
  | bool b => simp only [enforce_shape, Except.ok.injEq] at h; subst h; rfl
  | int n => simp only [enforce_shape, Except.ok.injEq] at h; subst h; rfl
  | str s => simp only [enforce_shape, Except.ok.injEq] at h; subst h; rfl
  | list xs => simp only [enforce_shape, Except.ok.injEq] at h; subst h; rfl
  | dict es =>
    simp only [enforce_shape, empty_payload_mkBase] at h
    rcases hs : dictGet es "summary" with _ | v
    · simp only [extractSection_none es "summary" hs] at h
      rcases hq : dictGet es "questions" with _ | w
      · simp only [extractSection_none es "questions" hq, Except.ok.injEq] at h
        rw [← h]
        simp [catCandidate, getNested, hs, hq, innerCand, filterStrs]
      · cases w with
        | dict innerQ =>
          simp only [extractSection_questions es innerQ hq, Except.ok.injEq] at h
          rw [← h]
          simp [catCandidate, getNested, hs, hq, innerCand, filterStrs]
        | none =>
          simp [extractSection_bad es "questions" _ hq (fun i hh => PyVal.noConfusion hh)
            questionCats (by decide)] at h
        | bool b =>
          simp [extractSection_bad es "questions" _ hq (fun i hh => PyVal.noConfusion hh)
            questionCats (by decide)] at h
        | int n =>
          simp [extractSection_bad es "questions" _ hq (fun i hh => PyVal.noConfusion hh)
            questionCats (by decide)] at h
        | str s =>
          simp [extractSection_bad es "questions" _ hq (fun i hh => PyVal.noConfusion hh)
            questionCats (by decide)] at h
        | list xs =>
          simp [extractSection_bad es "questions" _ hq (fun i hh => PyVal.noConfusion hh)
            questionCats (by decide)] at h
    · cases v with
      | dict innerS =>
        simp only [extractSection_summary es innerS hs] at h
        rcases hq : dictGet es "questions" with _ | w
        · simp only [extractSection_none es "questions" hq, Except.ok.injEq] at h
          rw [← h]
          simp [catCandidate, getNested, hs, hq, innerCand, filterStrs]
        · cases w with
          | dict innerQ =>
            simp only [extractSection_questions es innerQ hq, Except.ok.injEq] at h
            rw [← h]
            simp [catCandidate, getNested, hs, hq, innerCand, filterStrs]
          | none =>
            simp [extractSection_bad es "questions" _ hq (fun i hh => PyVal.noConfusion hh)
              questionCats (by decide)] at h
          | bool b =>
            simp [extractSection_bad es "questions" _ hq (fun i hh => PyVal.noConfusion hh)
              questionCats (by decide)] at h
          | int n =>
            simp [extractSection_bad es "questions" _ hq (fun i hh => PyVal.noConfusion hh)
              questionCats (by decide)] at h
          | str s =>
            simp [extractSection_bad es "questions" _ hq (fun i hh => PyVal.noConfusion hh)
              questionCats (by decide)] at h
          | list xs =>
            simp [extractSection_bad es "questions" _ hq (fun i hh => PyVal.noConfusion hh)
              questionCats (by decide)] at h
      | none =>
        simp [extractSection_bad es "summary" _ hs (fun i hh => PyVal.noConfusion hh)
          summaryCats (by decide)] at h
      | bool b =>
        simp [extractSection_bad es "summary" _ hs (fun i hh => PyVal.noConfusion hh)
          summaryCats (by decide)] at h
      | int n =>
        simp [extractSection_bad es "summary" _ hs (fun i hh => PyVal.noConfusion hh)
          summaryCats (by decide)] at h
      | str s =>
        simp [extractSection_bad es "summary" _ hs (fun i hh => PyVal.noConfusion hh)
          summaryCats (by decide)] at h
      | list xs =>
        simp [extractSection_bad es "summary" _ hs (fun i hh => PyVal.noConfusion hh)
          summaryCats (by decide)] at h

lemma allStr_filterStrs (xs : List PyVal) : allStr (filterStrs xs) = true := by
  rw [allStr, List.all_eq_true]
  intro x hx
  exact List.of_mem_filter hx

lemma filterStrs_of_allStr (xs : List PyVal) (h : allStr xs = true) : filterStrs xs = xs := by
  rw [filterStrs, List.filter_eq_self]
  rw [allStr, List.all_eq_true] at h
  exact h

lemma allStr_take (xs : List PyVal) (n : Nat) (h : allStr xs = true) : allStr (xs.take n) = true := by
  rw [allStr, List.all_eq_true] at *
  intro x hx
  exact h x (List.take_subset n xs hx)

lemma mkBase_entries (s1 s2 s3 s4 q1 q2 q3 q4 q5 : List PyVal) :
    mkBase s1 s2 s3 s4 q1 q2 q3 q4 q5 = .dict (baseEntries s1 s2 s3 s4 q1 q2 q3 q4 q5) := rfl

lemma enforce_shape_fixed (s1 s2 s3 s4 q1 q2 q3 q4 q5 : List PyVal)
    (h1 : allStr s1 = true) (h2 : allStr s2 = true) (h3 : allStr s3 = true) (h4 : allStr s4 = true)
    (g1 : allStr q1 = true) (g2 : allStr q2 = true) (g3 : allStr q3 = true) (g4 : allStr q4 = true)
    (g5 : allStr q5 = true)
    (hcap : q1.length + q2.length + q3.length + q4.length + q5.length ≤ 12) :
    enforce_shape (mkBase s1 s2 s3 s4 q1 q2 q3 q4 q5) =
      .ok (mkBase s1 s2 s3 s4 q1 q2 q3 q4 q5) := by
  have hs : dictGet (baseEntries s1 s2 s3 s4 q1 q2 q3 q4 q5) "summary"
      = Option.some (.dict (sumEntries s1 s2 s3 s4)) := rfl
  have hq : dictGet (baseEntries s1 s2 s3 s4 q1 q2 q3 q4 q5) "questions"
      = Option.some (.dict (questEntries q1 q2 q3 q4 q5)) := rfl
  have ib : innerCand (sumEntries s1 s2 s3 s4) "breathing" = s1 := rfl
  have if2 : innerCand (sumEntries s1 s2 s3 s4) "feeding" = s2 := rfl
  have ig : innerCand (sumEntries s1 s2 s3 s4) "growth" = s3 := rfl
  have ie : innerCand (sumEntries s1 s2 s3 s4) "events" = s4 := rfl
  have jb : innerCand (questEntries q1 q2 q3 q4 q5) "breathing" = q1 := rfl
  have jf : innerCand (questEntries q1 q2 q3 q4 q5) "feeding" = q2 := rfl
  have jg : innerCand (questEntries q1 q2 q3 q4 q5) "growth" = q3 := rfl
  have je : innerCand (questEntries q1 q2 q3 q4 q5) "events" = q4 := rfl
  have jd : innerCand (questEntries q1 q2 q3 q4 q5) "discharge" = q5 := rfl
  rw [mkBase_entries]
  simp only [enforce_shape, empty_payload_mkBase, extractSection_summary _ _ hs,
    extractSection_questions _ _ hq, ib, if2, ig, ie, jb, jf, jg, je, jd,
    filterStrs_of_allStr s1 h1, filterStrs_of_allStr s2 h2, filterStrs_of_allStr s3 h3,
    filterStrs_of_allStr s4 h4, filterStrs_of_allStr q1 g1, filterStrs_of_allStr q2 g2,
    filterStrs_of_allStr q3 g3, filterStrs_of_allStr q4 g4, filterStrs_of_allStr q5 g5]
  rw [capQuestions_mkBase]
  rw [List.take_of_length_le (by omega), List.take_of_length_le (by omega),
    List.take_of_length_le (by omega), List.take_of_length_le (by omega),
    List.take_of_length_le (by omega)]
  rw [← mkBase_entries]

/-- C1: the Shape Enforcer is claimed total, but `enforce_shape` raises
`AttributeError` on a dict whose `summary` entry is a string — the code
calls `.get` on the non-dict value `obj.get("summary", {})`. -/
theorem c1_totality_bug :
    enforce_shape (.dict [("summary", .str "overview")]) = .error "AttributeError" := rfl

/-- C2: whenever `enforce_shape` returns a record, the total number of
questions across the five categories is at most 12. -/
theorem c2_question_cap (v r : PyVal) (h : enforce_shape v = .ok r) :
    sumQuestions r ≤ 12 := by
  rw [enforce_shape_ok v r h, capQuestions_mkBase]
  simp [sumQuestions, qLen]
  omega

theorem c2_question_cap_witness : sumQuestions c2Output ≤ 12 :=
  c2_question_cap c2Input c2Output rfl

/-- C3: the cap truncates left-to-right in the fixed category order —
each category keeps a prefix of its candidates, cut at what remains of
the budget of 12 after the earlier categories — and on the 10-breathing
plus 5-feeding input the output is 10 breathing, the first 2 feeding,
and empty growth, events, discharge. -/
theorem c3_ordered_truncation :
    (∀ s1 s2 s3 s4 q1 q2 q3 q4 q5 : List PyVal,
      capQuestions (mkBase s1 s2 s3 s4 q1 q2 q3 q4 q5) =
        mkBase s1 s2 s3 s4 (q1.take 12) (q2.take (12 - q1.length))
          (q3.take (12 - (q1.length + q2.length)))
          (q4.take (12 - (q1.length + q2.length + q3.length)))
          (q5.take (12 - (q1.length + q2.length + q3.length + q4.length)))) ∧
    enforce_shape c3Input = .ok c3Output :=
  ⟨capQuestions_mkBase, rfl⟩

/-- C4: whenever `enforce_shape` returns a record, it has exactly the
keys `summary` and `questions`, with exactly the four summary and five
question categories, each mapped to a list. -/
theorem c4_key_completeness (v r : PyVal) (h : enforce_shape v = .ok r) :
    dictKeys r = Option.some ["summary", "questions"] ∧
    keysAt r "summary" = Option.some summaryCats ∧
    keysAt r "questions" = Option.some questionCats ∧
    (∀ sec ∈ summaryCats, isListAt r "summary" sec = true) ∧
    (∀ sec ∈ questionCats, isListAt r "questions" sec = true) := by
  rw [enforce_shape_ok v r h, capQuestions_mkBase]
  refine ⟨rfl, rfl, rfl, ?_, ?_⟩ <;> intro sec hsec <;>
    simp only [summaryCats, questionCats, List.mem_cons, List.not_mem_nil, or_false] at hsec
  · rcases hsec with rfl | rfl | rfl | rfl <;> rfl
  · rcases hsec with rfl | rfl | rfl | rfl | rfl <;> rfl

theorem c4_witness :
    dictKeys empty_payload = Option.some ["summary", "questions"] ∧
    keysAt empty_payload "summary" = Option.some summaryCats ∧
    keysAt empty_payload "questions" = Option.some questionCats ∧
    isListAt empty_payload "questions" "discharge" = true :=
  ⟨(c4_key_completeness PyVal.none empty_payload rfl).1,
   (c4_key_completeness PyVal.none empty_payload rfl).2.1,
   (c4_key_completeness PyVal.none empty_payload rfl).2.2.1,
   (c4_key_completeness PyVal.none empty_payload rfl).2.2.2.2 "discharge"
     (by simp [questionCats])⟩

/-- C5: whenever `enforce_shape` returns a record, each summary slot is
exactly the string elements of that category's candidate list in input
order (absent or non-list candidates give `[]`), and the whole record
is the cap applied to the string-filtered candidates of all nine
categories. -/
theorem c5_string_filtering (obj r : PyVal) (h : enforce_shape obj = .ok r) :
    (∀ sec ∈ summaryCats, getNested r "summary" sec =
      Option.some (.list (filterStrs (catCandidate obj "summary" sec)))) ∧
    r = capQuestions (mkBase
      (filterStrs (catCandidate obj "summary" "breathing"))
      (filterStrs (catCandidate obj "summary" "feeding"))
      (filterStrs (catCandidate obj "summary" "growth"))
      (filterStrs (catCandidate obj "summary" "events"))
      (filterStrs (catCandidate obj "questions" "breathing"))
      (filterStrs (catCandidate obj "questions" "feeding"))
      (filterStrs (catCandidate obj "questions" "growth"))
      (filterStrs (catCandidate obj "questions" "events"))
      (filterStrs (catCandidate obj "questions" "discharge"))) := by
  have hA := enforce_shape_ok obj r h
  refine ⟨?_, hA⟩
  intro sec hsec
  rw [hA, capQuestions_mkBase]
  simp only [summaryCats, List.mem_cons, List.not_mem_nil, or_false] at hsec
  rcases hsec with rfl | rfl | rfl | rfl <;> rfl

theorem c5_witness :
    enforce_shape c5Input = .ok c5Output ∧
    getNested c5Output "summary" "breathing" = Option.some (.list [.str "a", .str "b"]) :=
  ⟨rfl, ((c5_string_filtering c5Input c5Output rfl).1 "breathing"
    (by simp [summaryCats])).trans rfl⟩

/-- C6: `enforce_shape` is idempotent on its own outputs, and any
record of the canonical shape whose slots contain only strings and
whose question total is within the cap is a fixed point. -/
theorem c6_idempotent :
    (∀ v r : PyVal, enforce_shape v = .ok r → enforce_shape r = .ok r) ∧
    (∀ s1 s2 s3 s4 q1 q2 q3 q4 q5 : List PyVal,
      allStr s1 = true → allStr s2 = true → allStr s3 = true → allStr s4 = true →
      allStr q1 = true → allStr q2 = true → allStr q3 = true → allStr q4 = true →
      allStr q5 = true →
      q1.length + q2.length + q3.length + q4.length + q5.length ≤ 12 →
      enforce_shape (mkBase s1 s2 s3 s4 q1 q2 q3 q4 q5) =
        .ok (mkBase s1 s2 s3 s4 q1 q2 q3 q4 q5)) := by
  constructor
  · intro v r h
    rw [enforce_shape_ok v r h, capQuestions_mkBase]
    apply enforce_shape_fixed <;>
      first
      | exact allStr_filterStrs _
      | exact allStr_take _ _ (allStr_filterStrs _)
      | simp [List.length_take]; omega
  · exact enforce_shape_fixed

theorem c6_witness :
    enforce_shape empty_payload = .ok empty_payload ∧
    enforce_shape (mkBase [.str "s"] [] [] [] [.str "q"] [] [] [] []) =
      .ok (mkBase [.str "s"] [] [] [] [.str "q"] [] [] [] []) :=
  ⟨c6_idempotent.1 PyVal.none empty_payload rfl,
   c6_idempotent.2 [.str "s"] [] [] [] [.str "q"] [] [] [] []
     rfl rfl rfl rfl rfl rfl rfl rfl rfl (by decide)⟩

/-- C7 counterexample: with weeks `"30"` and days `""`, the days field
does not parse as an integer (`int("")` raises `ValueError`), yet the
code emits the token `"30+0"` because the empty string is falsy and is
silently replaced by 0 — so the token is not produced "only when both
sub-fields parse as integers". -/
theorem c7_cga_counterexample :
    cga_of (Option.some "30") (Option.some "") = Option.some "30+0" ∧
    parseIntPy "" = .error "ValueError" :=
  ⟨rfl, rfl⟩

/-- C7 (amended): the derived token appears exactly when the weeks
field is present, nonempty, and parses as an integer in 22–44, and the
days value — 0 when the field is absent or empty, its parse otherwise —
is an integer in 0–6; the token then is `weeks+days`, and in every
other case the derived field is absent and no error escapes. -/
theorem c7_cga_amended (ws ds : Option String) :
    (∀ t, cga_of ws ds = Option.some t →
      ∃ s w d, ws = Option.some s ∧ s ≠ "" ∧ parseIntPy s = .ok w ∧ daysVal ds = .ok d ∧
        22 ≤ w ∧ w ≤ 44 ∧ 0 ≤ d ∧ d ≤ 6 ∧ t = toString w ++ "+" ++ toString d) ∧
    (∀ s w d, ws = Option.some s → s ≠ "" → parseIntPy s = .ok w → daysVal ds = .ok d →
      22 ≤ w → w ≤ 44 → 0 ≤ d → d ≤ 6 →
      cga_of ws ds = Option.some (toString w ++ "+" ++ toString d)) := by
  constructor
  · intro t h
    rcases ws with _ | s
    · simp [cga_of] at h
    · by_cases hse : s = ""
      · simp [cga_of, hse] at h
      · cases hw : parseIntPy s with
        | error e => simp [cga_of, hse, hw] at h
        | ok w =>
          cases hd : daysVal ds with
          | error e => simp [cga_of, hse, hw, hd] at h
          | ok d =>
            by_cases hr : 22 ≤ w ∧ w ≤ 44 ∧ 0 ≤ d ∧ d ≤ 6
            · refine ⟨s, w, d, rfl, hse, hw, rfl, hr.1, hr.2.1, hr.2.2.1, hr.2.2.2, ?_⟩
              simp [cga_of, hse, hw, hd, hr] at h
              exact h.symm
            · simp [cga_of, hse, hw, hd, hr] at h
  · intro s w d hws hse hw hd r1 r2 r3 r4
    subst hws
    simp [cga_of, hse, hw, hd, r1, r2, r3, r4]

theorem c7_cga_witness :
    cga_of (Option.some "30") (Option.some "4") = Option.some "30+4" :=
  ((c7_cga_amended (Option.some "30") (Option.some "4")).2 "30" 30 4 rfl
    (by decide) rfl rfl (by decide) (by decide) (by decide) (by decide)).trans rfl

/-- C8: `clamp_text` strips, then returns exactly the first
`max_chars` characters of the stripped string (unchanged when it is
short enough). -/
theorem c8_clamp_text (s : String) (n : Nat) :
    clamp_text s n = String.mk ((pyStrip s).toList.take n) ∧
    ((pyStrip s).length ≤ n → clamp_text s n = pyStrip s) := by
  constructor
  · rw [clamp_text]
    by_cases h : (pyStrip s).length > n
    · simp [h]
    · simp only [h, if_false]
      have hl : ((pyStrip s).toList).length ≤ n := Nat.le_of_not_lt h
      rw [List.take_of_length_le hl]
      rfl
  · intro hle
    rw [clamp_text]
    simp [Nat.not_lt.mpr hle]

set_option maxRecDepth 40000 in
theorem c8_clamp_text_witness :
    clamp_text (String.mk (' ' :: ' ' :: List.replicate 1498 'a')) 1200 =
      String.mk (List.replicate 1200 'a') ∧
    clamp_text " hi " 10 = "hi" :=
  ⟨((c8_clamp_text (String.mk (' ' :: ' ' :: List.replicate 1498 'a')) 1200).1).trans rfl,
   ((c8_clamp_text " hi " 10).2 (by decide)).trans rfl⟩

/-- C9: with a nonempty API key, no notes, no weight, respiratory
support `"Room air"` and feeding `"Combo"`, `generate` short-circuits
to the base empty payload without reaching the external call or
`enforce_shape`. -/
theorem c9_short_circuit (k dateISO : String) (cgaWeeks cgaDays weightHistory : Option String)
    (hk : k ≠ "") :
    generate (Option.some k) dateISO "Room air" "Combo" Option.none cgaWeeks cgaDays
      weightHistory Option.none = .shortCircuit empty_payload := by
  unfold generate
  rw [show pyTruthy (Option.some k) = true from by simp [pyTruthy, hk]]
  rfl

theorem c9_short_circuit_witness :
    generate (Option.some "key") "2025-01-01" "Room air" "Combo" Option.none Option.none
      Option.none Option.none Option.none = .shortCircuit empty_payload :=
  c9_short_circuit "key" "2025-01-01" Option.none Option.none Option.none (by decide)
